import Mathlib

/-!
Verification development for the ns-3 measurement-instrumentation harness of
the QUIC-BBR vs TCP-CUBIC comparison repository.

The repository consists of ten simulation programs (five topologies, two
congestion-control variants each).  The instrumentation core shared by all of
them is embedded here shallowly:

* the per-flow packet counters (`Counters`, C++ globals `packetsSent` and
  `packetsReceived`, of type `uint32_t` in the cited files) together with the
  notification callbacks that increment them;
* the loss-calculation tick `CalculatePacketLoss` in its three variants
  (QUIC-BBR point-to-point style, TCP-CUBIC point-to-point style, and the Bus
  QUIC-BBR style that recomputes the received counter from sink bytes);
* the throughput part of the sampler tick (`TraceMetrics` in the BBR files,
  `findThroughput` in the CUBIC files; the delta computation is identical);
* the congestion-window trace callback (`CwndTracer` and `CwndChange`), which
  divides the raw byte value by the reference packet size 1500;
* the trace-attachment retry loop `AttachTraces`;
* the tick-timestamp sequences produced by the various
  Simulator::Schedule calls.

Machine integers are modelled as `Nat` with explicit reduction modulo 2^32
or 2^64 exactly where the C++ unsigned arithmetic can wrap; real-valued
results are modelled in `ℚ` (the double computations involved are exact at
every value appearing in the statements below).
-/

/-- Per-flow counter state.  Embeds the C++ globals
uint32 packetsSent and uint32 packetsReceived (for example
src/ Point-To-Point/quicbbr.cc lines 53 and 54).  Both fields are kept as
natural numbers; the callbacks below reduce modulo 2^32 as the C++
increments do. -/
structure Counters where
  sent : Nat
  received : Nat
deriving DecidableEq, Repr

/-- Embeds PacketSentCallback (src/ Point-To-Point/quicbbr.cc lines 70 to 74):
the body is packetsSent++ on a uint32 counter, an increment modulo 2^32. -/
def PacketSentCallback (c : Counters) : Counters :=
  { c with sent := (c.sent + 1) % 2 ^ 32 }

/-- Embeds PacketReceivedCallback (src/ Point-To-Point/quicbbr.cc lines 77 to
81): packetsReceived++ on a uint32 counter, an increment modulo 2^32. -/
def PacketReceivedCallback (c : Counters) : Counters :=
  { c with received := (c.received + 1) % 2 ^ 32 }

/-- The loss value computed in the sent > 0 branch of CalculatePacketLoss
(src/ Point-To-Point/quicbbr.cc line 87, src/ Point-To-Point/tcpcubic.cc
line 84, src/Bus/quicbbr.cc line 80):

  ((packetsSent - packetsReceived) / static_cast double (packetsSent)) * 100

The subtraction packetsSent - packetsReceived is performed on the two
uint32 operands, hence modulo 2^32, before the conversion to double; for
counter values below 2^32 that difference is (sent + 2^32 - received) % 2^32.
The subsequent division and scaling are exact in ℚ. -/
def lossValue (c : Counters) : ℚ :=
  (((c.sent + 2 ^ 32 - c.received) % 2 ^ 32 : ℕ) : ℚ) / (c.sent : ℚ) * 100

/-- Embeds CalculatePacketLoss of src/ Point-To-Point/quicbbr.cc lines 84 to
98 as one tick: given the current time and counter state it returns the
(unchanged) counter state together with the list of records appended to the
packet-loss file by this tick.  When packetsSent is 0 the function only logs
a debug message and emits no record. -/
def CalculatePacketLoss_quicbbr (time : ℚ) (c : Counters) :
    Counters × List (ℚ × ℚ) :=
  (c, if 0 < c.sent then [(time, lossValue c)] else [])

/-- Embeds CalculatePacketLoss of src/ Point-To-Point/tcpcubic.cc lines 81 to
90 (same shape in the Mesh, Bus and Star CUBIC files): identical loss formula,
but the sent = 0 branch writes an explicit record with value 0.0. -/
def CalculatePacketLoss_tcpcubic (time : ℚ) (c : Counters) :
    Counters × List (ℚ × ℚ) :=
  (c, if 0 < c.sent then [(time, lossValue c)] else [(time, 0)])

/-- Embeds CalculatePacketLoss of src/Bus/quicbbr.cc lines 71 to 89.  Before
computing the loss this tick overwrites the received counter:

  packetsReceived = sink->GetTotalRx() / PACKET_SIZE;

GetTotalRx is uint64, PACKET_SIZE is 1500; the quotient is truncated to the
uint32 global on assignment.  The sent = 0 branch writes a 0.0 record. -/
def CalculatePacketLoss_bus (time : ℚ) (c : Counters) (totalRx : Nat) :
    Counters × List (ℚ × ℚ) :=
  let c2 : Counters := { c with received := totalRx / 1500 % 2 ^ 32 }
  (c2, if 0 < c2.sent then [(time, lossValue c2)] else [(time, 0)])

/-- Initial value of the private last-observed cumulative total of the
throughput sampler: static uint64 lastTotalRx = 0 in
src/ Point-To-Point/quicbbr.cc line 102 and the file-scope
uint64 lastTotalRx = 0 of the CUBIC files. -/
def lastTotalRx_init : Nat := 0

/-- Embeds the throughput computation shared by TraceMetrics
(src/ Point-To-Point/quicbbr.cc lines 107 to 109) and findThroughput
(src/ Point-To-Point/tcpcubic.cc lines 74 to 76):

  throughput = ((totalRx - lastTotalRx) * 8.0) / 1e6;  lastTotalRx = totalRx;

Both operands of the subtraction are uint64, so it is performed modulo 2^64.
The result pairs the emitted Mbps value with the overwritten private
last-observed total. -/
def findThroughput (totalRx lastTotalRx : Nat) : ℚ × Nat :=
  ((((totalRx + 2 ^ 64 - lastTotalRx) % 2 ^ 64 : ℕ) : ℚ) * 8 / 1000000, totalRx)

/-- Embeds CwndTracer (src/ Point-To-Point/quicbbr.cc lines 57 to 61) and
CwndChange (src/ Point-To-Point/tcpcubic.cc lines 58 to 62):

  g_cwnd = newCwnd / PACKET_SIZE;

newCwnd and PACKET_SIZE (1500) are both uint32, so the division is the
truncating integer division, and only then is the quotient stored in the
double g_cwnd. -/
def CwndTracer (newCwnd : Nat) : ℚ :=
  ((newCwnd / 1500 : ℕ) : ℚ)

/-- Tick-timestamp sequence of the BBR samplers: TraceMetrics and
CalculatePacketLoss are first scheduled at Seconds(1.0)
(src/ Point-To-Point/quicbbr.cc lines 277 and 280) and each tick reschedules
itself at now + Seconds(1.0) (lines 97 and 117); with the interval as a
parameter, tick k fires at (k+1) * interval. -/
def quicTickTime (interval : ℚ) (k : Nat) : ℚ :=
  (k + 1) * interval

/-- Timestamp sequence of the Ring CUBIC throughput sampler: findThroughput
is first scheduled at Seconds(0.01) (src/Ring/tcpcubic.cc line 216) and
reschedules itself every Seconds(1.0) (line 107), so tick k fires at
0.01 + k. -/
def ringThroughputTime (k : Nat) : ℚ :=
  1 / 100 + k

/-- Timestamp sequence of the Point-To-Point CUBIC throughput and loss
samplers: first scheduled at Seconds(1.0) (src/ Point-To-Point/tcpcubic.cc
lines 162 and 163) but rescheduling themselves every MilliSeconds(100)
(lines 77 and 89), so tick k fires at 1 + k / 10.  The Mesh and Star CUBIC
files use the same schedule. -/
def cubicFastTickTime (k : Nat) : ℚ :=
  1 + k * (1 / 10)

/-- View the trace-attachment code has of the sender socket at one attempt:
GetSocket may return null (missing), a socket that the DynamicCast to
QuicSocketBase rejects (notQuic), or the QUIC socket (quic). -/
inductive SocketView where
  | missing : SocketView
  | notQuic : SocketView
  | quic : SocketView
deriving DecidableEq, Repr

/-- Outcome of one call of AttachTraces:
configError when the DynamicCast to BulkSendApplication fails (logged with
NS_LOG_ERROR, nothing rescheduled); retryScheduled when the socket is null or
not a QUIC socket (Simulator::Schedule of the same call after the retry
delay); attached when both casts succeed and the two
TraceConnectWithoutContext subscriptions (CongestionWindow and RTT) are made. -/
inductive AttachOutcome where
  | configError : AttachOutcome
  | retryScheduled : AttachOutcome
  | attached : AttachOutcome
deriving DecidableEq, Repr

/-- Embeds one call of AttachTraces (src/ Point-To-Point/quicbbr.cc lines 120
to 141): isBulk records whether the DynamicCast to BulkSendApplication
succeeds, s is the socket view of this attempt. -/
def AttachTraces_step (isBulk : Bool) (s : SocketView) : AttachOutcome :=
  if isBulk then
    match s with
    | SocketView.quic => AttachOutcome.attached
    | SocketView.notQuic => AttachOutcome.retryScheduled
    | SocketView.missing => AttachOutcome.retryScheduled
  else AttachOutcome.configError

/-- Retry delay of AttachTraces in the Point-To-Point, Bus, Star and Ring
BBR files: Simulator::Schedule(Seconds(0.1), &AttachTraces, app). -/
def AttachTraces_delay : ℚ := 1 / 10

/-- Retry delay of AttachTraces in the Mesh BBR file:
Simulator::Schedule(Seconds(0.2), &AttachTraces, app)
(src/Mesh/quicbbr.cc lines 114 and 118). -/
def AttachTraces_delay_mesh : ℚ := 1 / 5

/-- The sequence of AttachTraces call outcomes produced by the retry loop,
starting at attempt index k, with enough fuel.  env gives the socket view
seen by each attempt.  A retryScheduled outcome reschedules the same call
(attempt index advances), any other outcome ends the loop: the success
branch and the configuration-error branch of the C++ code schedule nothing. -/
def attachRun (isBulk : Bool) (env : Nat → SocketView) : Nat → Nat → List AttachOutcome
  | _, 0 => []
  | k, fuel + 1 =>
    let o := AttachTraces_step isBulk (env k)
    if o = AttachOutcome.retryScheduled then o :: attachRun isBulk env (k + 1) fuel
    else [o]

/-- A failing attempt of AttachTraces on a bulk-send application always takes
one of the two retry branches. -/
theorem AttachTraces_step_retry (s : SocketView) (h : s ≠ SocketView.quic) :
    AttachTraces_step true s = AttachOutcome.retryScheduled := by
  cases s with
  | missing => rfl
  | notQuic => rfl
  | quic => exact absurd rfl h

/-- Count of a fixed element in a replicated list. -/
theorem countP_replicate_eq {α : Type} (p : α → Bool) (a : α) (n : Nat) :
    (List.replicate n a).countP p = if p a then n else 0 := by
  induction n with
  | zero => simp
  | succ m ih =>
    rw [List.replicate_succ, List.countP_cons, ih]
    by_cases h : p a = true
    · simp [h]
    · simp [h]

/-- The retry loop run from attempt k, when the first n attempts fail
transiently and attempt n succeeds, is n retries followed by one attachment. -/
theorem attachRun_first_success (env : Nat → SocketView) :
    ∀ n k f, (∀ i, i < n → env (k + i) ≠ SocketView.quic) →
    env (k + n) = SocketView.quic →
    attachRun true env k (n + 1 + f) =
      List.replicate n AttachOutcome.retryScheduled ++ [AttachOutcome.attached] := by
  intro n
  induction n with
  | zero =>
    intro k f _ hs
    have hk : env k = SocketView.quic := by simpa using hs
    have : (0 : Nat) + 1 + f = f + 1 := by omega
    rw [this]
    simp [attachRun, AttachTraces_step, hk]
  | succ m ih =>
    intro k f hfail hs
    have hk : env k ≠ SocketView.quic := by
      have := hfail 0 (Nat.succ_pos m)
      simpa using this
    have hstep := AttachTraces_step_retry (env k) hk
    have harith : m + 1 + 1 + f = (m + 1 + f) + 1 := by omega
    rw [harith]
    show (let o := AttachTraces_step true (env k);
      if o = AttachOutcome.retryScheduled then
        o :: attachRun true env (k + 1) (m + 1 + f)
      else [o]) = _
    rw [hstep]
    simp only [if_pos rfl]
    have hs2 : env (k + 1 + m) = SocketView.quic := by
      have he : k + (m + 1) = k + 1 + m := by omega
      rwa [he] at hs
    have hrest := ih (k + 1) f
      (fun i hi => by
        have h2 := hfail (i + 1) (by omega)
        have he : k + (i + 1) = k + 1 + i := by omega
        rwa [he] at h2)
      hs2
    rw [hrest, List.replicate_succ]
    rfl

/-- Claim C1 counterexample: the claim states that whenever sent > 0 the
emitted loss value equals max(0, sent - received) / sent as a percentage and
is therefore always in [0, 100], for all counter values including
received > sent.  At sent = 1, received = 2 the uint32 subtraction in
CalculatePacketLoss wraps and the emitted value is 429496729500, far above
100 (the claimed value would be 0). -/
theorem C1_counterexample_loss_exceeds_100 :
    lossValue ⟨1, 2⟩ = 429496729500 ∧ ¬ lossValue ⟨1, 2⟩ ≤ 100 := by
  have h : ((1 + 2 ^ 32 - 2) % 2 ^ 32 : ℕ) = 4294967295 := by norm_num
  constructor
  · rw [lossValue]
    rw [h]
    norm_num
  · rw [lossValue, h]
    norm_num

/-- Claim C1, amended: whenever sent > 0 and received ≤ sent (the counter
relation the spec itself calls expected), the loss value emitted by
CalculatePacketLoss equals (sent - received) / sent * 100 and lies in
[0, 100]; when received exceeds sent the uint32 subtraction wraps instead of
clamping to 0, and the emitted value exceeds 100. -/
theorem C1_loss_in_range_when_received_le_sent (c : Counters)
    (h0 : 0 < c.sent) (hle : c.received ≤ c.sent) (hlt : c.sent < 2 ^ 32) :
    lossValue c = ((c.sent - c.received : ℕ) : ℚ) / (c.sent : ℚ) * 100 ∧
    0 ≤ lossValue c ∧ lossValue c ≤ 100 := by
  have hmod : (c.sent + 2 ^ 32 - c.received) % 2 ^ 32 = c.sent - c.received := by
    omega
  have hform : lossValue c = ((c.sent - c.received : ℕ) : ℚ) / (c.sent : ℚ) * 100 := by
    rw [lossValue, hmod]
  have hs : (0 : ℚ) < (c.sent : ℚ) := by exact_mod_cast h0
  have hd : ((c.sent - c.received : ℕ) : ℚ) ≤ (c.sent : ℚ) := by
    exact_mod_cast Nat.sub_le c.sent c.received
  have hd0 : (0 : ℚ) ≤ ((c.sent - c.received : ℕ) : ℚ) := by positivity
  have hratio : ((c.sent - c.received : ℕ) : ℚ) / (c.sent : ℚ) ≤ 1 :=
    (div_le_one hs).mpr hd
  have hratio0 : (0 : ℚ) ≤ ((c.sent - c.received : ℕ) : ℚ) / (c.sent : ℚ) :=
    div_nonneg hd0 (le_of_lt hs)
  refine ⟨hform, ?_, ?_⟩
  · rw [hform]
    positivity
  · rw [hform]
    nlinarith

/-- Claim C1 witness: at sent = 100, received = 95 (the example of the
specification) the loss value is 5 percent and lies in [0, 100]. -/
theorem C1_witness_loss_five_percent :
    lossValue ⟨100, 95⟩ = 5 ∧ 0 ≤ lossValue ⟨100, 95⟩ ∧ lossValue ⟨100, 95⟩ ≤ 100 := by
  obtain ⟨h1, h2, h3⟩ :=
    C1_loss_in_range_when_received_le_sent ⟨100, 95⟩ (by decide) (by decide) (by decide)
  refine ⟨?_, h2, h3⟩
  rw [h1]
  norm_num

/-- Claim C6 counterexample: the claim states that every loss-calculation
tick with sent = 0 emits a record with value 0.  The tick of
CalculatePacketLoss in the cited BBR point-to-point file emits no record at
all in that case: its record list is empty, not the claimed single
zero-valued record. -/
theorem C6_counterexample_quicbbr_omits_record :
    (CalculatePacketLoss_quicbbr 1 ⟨0, 0⟩).2 = [] ∧
    (CalculatePacketLoss_quicbbr 1 ⟨0, 0⟩).2 ≠ [(1, 0)] := by
  constructor
  · rfl
  · intro h
    simp [CalculatePacketLoss_quicbbr] at h

/-- Claim C6, amended: at a loss-calculation tick with sent = 0 the CUBIC
point-to-point variant emits exactly one record with value 0, while the BBR
point-to-point variant emits no record (the tick is skipped without error);
in both variants the counters are left unchanged. -/
theorem C6_zero_sent_loss_record_by_variant (t : ℚ) (c : Counters)
    (h : c.sent = 0) :
    (CalculatePacketLoss_tcpcubic t c).2 = [(t, 0)] ∧
    (CalculatePacketLoss_quicbbr t c).2 = [] ∧
    (CalculatePacketLoss_tcpcubic t c).1 = c ∧
    (CalculatePacketLoss_quicbbr t c).1 = c := by
  refine ⟨?_, ?_, rfl, rfl⟩
  · simp [CalculatePacketLoss_tcpcubic, h]
  · simp [CalculatePacketLoss_quicbbr, h]

/-- Claim C6 witness: at time 1 with counters (0, 7), the CUBIC tick emits
the single record (1, 0) and the BBR tick emits nothing. -/
theorem C6_witness_zero_sent :
    (CalculatePacketLoss_tcpcubic 1 ⟨0, 7⟩).2 = [(1, 0)] ∧
    (CalculatePacketLoss_quicbbr 1 ⟨0, 7⟩).2 = [] ∧
    (CalculatePacketLoss_tcpcubic 1 ⟨0, 7⟩).1 = ⟨0, 7⟩ ∧
    (CalculatePacketLoss_quicbbr 1 ⟨0, 7⟩).1 = ⟨0, 7⟩ :=
  C6_zero_sent_loss_record_by_variant 1 ⟨0, 7⟩ rfl

/-- Claim C10: in the loss computation the difference sent - received is
evaluated in unsigned 32-bit arithmetic before the conversion to a real
number: for every counter state with 0 < sent < received < 2^32 the emitted
loss percentage equals ((sent - received) mod 2^32) / sent * 100, and in
particular exceeds 100 rather than being negative or clamped. -/
theorem C10_unsigned_wraparound_loss (c : Counters)
    (h0 : 0 < c.sent) (hgt : c.sent < c.received) (hr : c.received < 2 ^ 32) :
    lossValue c =
      (((((c.sent : ℤ) - (c.received : ℤ)) % 2 ^ 32 : ℤ)) : ℚ) / (c.sent : ℚ) * 100 ∧
    100 < lossValue c := by
  have hnat : (c.sent + 2 ^ 32 - c.received) % 2 ^ 32 = c.sent + 2 ^ 32 - c.received := by
    omega
  have hint : ((c.sent : ℤ) - (c.received : ℤ)) % 2 ^ 32 =
      ((c.sent + 2 ^ 32 - c.received : ℕ) : ℤ) := by
    omega
  have hform : lossValue c = ((c.sent + 2 ^ 32 - c.received : ℕ) : ℚ) / (c.sent : ℚ) * 100 := by
    rw [lossValue, hnat]
  constructor
  · rw [hform, hint]
    push_cast
    ring
  · have hs : (0 : ℚ) < (c.sent : ℚ) := by exact_mod_cast h0
    have hd : (c.sent : ℚ) < ((c.sent + 2 ^ 32 - c.received : ℕ) : ℚ) := by
      exact_mod_cast (by omega : c.sent < c.sent + 2 ^ 32 - c.received)
    have hratio : 1 < ((c.sent + 2 ^ 32 - c.received : ℕ) : ℚ) / (c.sent : ℚ) :=
      (one_lt_div hs).mpr hd
    rw [hform]
    nlinarith

/-- Claim C10 witness: at sent = 2, received = 5 the emitted loss value
equals ((2 - 5) mod 2^32) / 2 * 100 and exceeds 100. -/
theorem C10_witness_wraparound :
    lossValue ⟨2, 5⟩ =
      ((((2 : ℤ) - (5 : ℤ)) % 2 ^ 32 : ℤ) : ℚ) / (2 : ℚ) * 100 ∧
    100 < lossValue ⟨2, 5⟩ := by
  have h := C10_unsigned_wraparound_loss ⟨2, 5⟩ (by decide) (by decide) (by decide)
  exact ⟨by exact_mod_cast h.1, h.2⟩

/-- Claim C7 counterexample: the claim states that the reported
congestion-window sample equals the raw byte value divided by 1500 as an
exact quotient.  The C++ division newCwnd / PACKET_SIZE is an integer
division: at a raw value of 1501 bytes the callback stores 1, not the exact
quotient 1501 / 1500. -/
theorem C7_counterexample_truncating_division :
    CwndTracer 1501 = 1 ∧ CwndTracer 1501 ≠ (1501 : ℚ) / 1500 := by
  constructor
  · rw [CwndTracer]
    norm_num
  · rw [CwndTracer]
    norm_num

/-- Claim C7, amended: the reported congestion-window sample equals the
floor of the raw byte value divided by the reference packet size 1500 (a
truncating integer division); it equals the exact quotient precisely when
1500 divides the raw value, as in the specification example 15000 bytes
reported as 10.0 packets. -/
theorem C7_cwnd_floor_division (b : Nat) :
    CwndTracer b = (Nat.floor ((b : ℚ) / 1500) : ℕ) ∧
    (1500 ∣ b → CwndTracer b = (b : ℚ) / 1500) := by
  constructor
  · have h1 : (Nat.floor ((b : ℚ) / 1500) : ℕ) = b / 1500 := by
      rw [show (1500 : ℚ) = ((1500 : ℕ) : ℚ) from by norm_cast,
        Nat.floor_div_nat, Nat.floor_natCast]
    rw [CwndTracer, h1]
  · intro hdvd
    obtain ⟨k, rfl⟩ := hdvd
    rw [CwndTracer, Nat.mul_div_cancel_left k (by norm_num)]
    push_cast
    ring

/-- Claim C7 witness: a raw byte value of 15000 with reference packet size
1500 is reported as exactly 10 packets, the exact quotient. -/
theorem C7_witness_cwnd_15000 :
    CwndTracer 15000 = (15000 : ℚ) / 1500 ∧ CwndTracer 15000 = 10 := by
  have h := (C7_cwnd_floor_division 15000).2 ⟨10, rfl⟩
  exact ⟨h, by rw [h]; norm_num⟩

/-- Claim C2 counterexample: the claim states that for every metric kind the
first sample fires exactly at one sampling interval and consecutive samples
are exactly one sampling period apart, which forces the first timestamp and
the inter-sample gap to coincide.  For the Ring CUBIC throughput stream the
first tick is at 0.01 while the gap is 1, and for the Point-To-Point CUBIC
throughput and loss streams the first tick is at 1 while the gap is 0.1; in
both streams the two quantities differ, so no sampling interval satisfies
the claim. -/
theorem C2_counterexample_schedule_mismatch :
    ringThroughputTime 0 = 1 / 100 ∧
    ringThroughputTime 1 - ringThroughputTime 0 = 1 ∧
    ringThroughputTime 0 ≠ ringThroughputTime 1 - ringThroughputTime 0 ∧
    cubicFastTickTime 0 = 1 ∧
    cubicFastTickTime 1 - cubicFastTickTime 0 = 1 / 10 ∧
    cubicFastTickTime 0 ≠ cubicFastTickTime 1 - cubicFastTickTime 0 := by
  norm_num [ringThroughputTime, cubicFastTickTime]

/-- Claim C2, amended: for the BBR sampler ticks (TraceMetrics and
CalculatePacketLoss, all four metric kinds), tick k fires at (k+1) times the
interval: every timestamp is a positive multiple of the interval, the first
tick is exactly at one interval (never at time 0 and never earlier than one
interval), and consecutive ticks are exactly one interval apart.  The CUBIC
variants deviate: their cwnd and rtt records are written per notification,
the Ring throughput sampler first fires at 0.01 s, and the Point-To-Point,
Mesh and Star CUBIC throughput and loss samplers first fire at 1 s but then
recur every 0.1 s. -/
theorem C2_quic_sampler_tick_times (I : ℚ) (k : Nat) (hI : 0 < I) :
    (∃ m : Nat, 1 ≤ m ∧ quicTickTime I k = m * I) ∧
    quicTickTime I 0 = I ∧
    quicTickTime I (k + 1) - quicTickTime I k = I ∧
    I ≤ quicTickTime I k := by
  have hk : (0 : ℚ) ≤ (k : ℚ) := Nat.cast_nonneg k
  refine ⟨⟨k + 1, by omega, ?_⟩, ?_, ?_, ?_⟩
  · rw [quicTickTime]
    push_cast
    ring
  · rw [quicTickTime]
    norm_num
  · rw [quicTickTime, quicTickTime]
    push_cast
    ring
  · rw [quicTickTime]
    nlinarith

/-- Claim C2 witness: with a 1-second interval the first BBR sampler tick
fires exactly at 1 second, a positive multiple of the interval, and the next
tick is exactly one interval later. -/
theorem C2_witness_first_tick :
    (∃ m : Nat, 1 ≤ m ∧ quicTickTime 1 0 = m * 1) ∧
    quicTickTime 1 0 = 1 ∧
    quicTickTime 1 (0 + 1) - quicTickTime 1 0 = 1 ∧
    1 ≤ quicTickTime 1 0 :=
  C2_quic_sampler_tick_times 1 0 (by norm_num)

/-- Claim C3: if the application is a bulk sender and the QUIC socket
becomes available only at attempt n (the first n attempts each see a null or
non-QUIC socket), the retry loop of AttachTraces performs exactly n
rescheduled retries followed by exactly one successful attachment, the
successful attachment (which subscribes to the congestion-window and RTT
notifications) occurs exactly once, and nothing is scheduled after it: the
outcome trace is literally n retries then one attachment, for any amount of
remaining fuel. -/
theorem C3_retry_until_first_success (n f : Nat) (env : Nat → SocketView)
    (hfail : ∀ i, i < n → env i ≠ SocketView.quic)
    (hsucc : env n = SocketView.quic) :
    attachRun true env 0 (n + 1 + f) =
      List.replicate n AttachOutcome.retryScheduled ++ [AttachOutcome.attached] ∧
    (attachRun true env 0 (n + 1 + f)).countP
      (fun o => decide (o = AttachOutcome.attached)) = 1 ∧
    (attachRun true env 0 (n + 1 + f)).countP
      (fun o => decide (o = AttachOutcome.retryScheduled)) = n := by
  have h := attachRun_first_success env n 0 f
    (fun i hi => by simpa using hfail i hi) (by simpa using hsucc)
  refine ⟨h, ?_, ?_⟩
  · rw [h, List.countP_append, countP_replicate_eq]
    simp
  · rw [h, List.countP_append, countP_replicate_eq]
    simp

/-- Environment for the claim C3 witness: the socket is null on the first
three attempts and is the QUIC socket from the fourth attempt on. -/
def envAfterThree : Nat → SocketView :=
  fun k => if k < 3 then SocketView.missing else SocketView.quic

/-- Claim C3 witness: with a socket that becomes available after exactly 3
failed attempts, the loop produces the trace
[retry, retry, retry, attached]: three discarded retries, one successful
attachment, and nothing after it. -/
theorem C3_witness_three_retries :
    attachRun true envAfterThree 0 4 =
      List.replicate 3 AttachOutcome.retryScheduled ++ [AttachOutcome.attached] ∧
    (attachRun true envAfterThree 0 4).countP
      (fun o => decide (o = AttachOutcome.attached)) = 1 ∧
    (attachRun true envAfterThree 0 4).countP
      (fun o => decide (o = AttachOutcome.retryScheduled)) = 3 :=
  C3_retry_until_first_success 3 0 envAfterThree
    (fun i hi => by interval_cases i <;> decide) (by decide)

/-- Claim C4: AttachTraces classifies its failures as the error taxonomy
requires.  When the application handle is not a bulk-data sender the call
reports a configuration error and the run of the loop ends immediately with
that single outcome, whatever fuel remains: no retry is ever scheduled.
When the application is a bulk sender but its socket is not yet available
(null, or not yet a QUIC socket), the call ends with exactly one scheduled
retry of the same attempt and no error outcome.  The retry delay is the
fixed 0.1 s of the Point-To-Point, Bus, Star and Ring BBR files or the fixed
0.2 s of the Mesh BBR file, both within the 0.1 to 0.2 simulated-second
range stated by the claim. -/
theorem C4_error_taxonomy (s : SocketView) (env : Nat → SocketView) (k f : Nat) :
    AttachTraces_step false s = AttachOutcome.configError ∧
    attachRun false env k (f + 1) = [AttachOutcome.configError] ∧
    (env k ≠ SocketView.quic →
      attachRun true env k 1 = [AttachOutcome.retryScheduled]) ∧
    AttachTraces_delay = 1 / 10 ∧
    AttachTraces_delay_mesh = 1 / 5 ∧
    (1 / 10 ≤ AttachTraces_delay ∧ AttachTraces_delay ≤ 1 / 5) ∧
    (1 / 10 ≤ AttachTraces_delay_mesh ∧ AttachTraces_delay_mesh ≤ 1 / 5) := by
  refine ⟨rfl, ?_, ?_, rfl, rfl,
    ⟨by norm_num [AttachTraces_delay], by norm_num [AttachTraces_delay]⟩,
    ⟨by norm_num [AttachTraces_delay_mesh], by norm_num [AttachTraces_delay_mesh]⟩⟩
  · simp [attachRun, AttachTraces_step]
  · intro h
    have hstep := AttachTraces_step_retry (env k) h
    simp [attachRun, hstep]

/-- Claim C4 witness: on a handle that is not a bulk sender the call reports
a configuration error and the loop ends with that single outcome; on a bulk
sender whose socket is still null the call ends with exactly one scheduled
retry; the two retry delays are 0.1 and 0.2 seconds. -/
theorem C4_witness_taxonomy :
    AttachTraces_step false SocketView.missing = AttachOutcome.configError ∧
    attachRun false (fun _ => SocketView.missing) 0 1 = [AttachOutcome.configError] ∧
    attachRun true (fun _ => SocketView.missing) 0 1 = [AttachOutcome.retryScheduled] ∧
    AttachTraces_delay = 1 / 10 ∧
    AttachTraces_delay_mesh = 1 / 5 := by
  have h := C4_error_taxonomy SocketView.missing (fun _ => SocketView.missing) 0 0
  exact ⟨h.1, h.2.1, h.2.2.1 (by decide), h.2.2.2.1, h.2.2.2.2.1⟩

/-- Claim C5: at every sampling tick the emitted throughput equals
(cumulative bytes received now minus the total recorded at the previous
tick) times 8 divided by 1e6, in Mbps, and the private last-observed total
is overwritten with the current cumulative total.  The hypotheses state that
the cumulative total has not decreased and the delta fits in the uint64
subtraction, both guaranteed for the monotone GetTotalRx counter. -/
theorem C5_throughput_delta (totalRx lastRx : Nat) (hle : lastRx ≤ totalRx)
    (hw : totalRx - lastRx < 2 ^ 64) :
    (findThroughput totalRx lastRx).1 =
      ((totalRx : ℚ) - (lastRx : ℚ)) * 8 / 1000000 ∧
    (findThroughput totalRx lastRx).2 = totalRx := by
  have hmod : (totalRx + 2 ^ 64 - lastRx) % 2 ^ 64 = totalRx - lastRx := by omega
  constructor
  · show (((totalRx + 2 ^ 64 - lastRx) % 2 ^ 64 : ℕ) : ℚ) * 8 / 1000000 = _
    rw [hmod, Nat.cast_sub hle]
  · rfl

/-- Claim C5 witness: for the received-byte totals 0, 1250000, 2500000
observed at the first two ticks, with the private total starting at its
initial value 0, both throughput samples equal exactly 10 Mbps. -/
theorem C5_witness_ten_mbps :
    (findThroughput 1250000 lastTotalRx_init).1 = 10 ∧
    (findThroughput 2500000 (findThroughput 1250000 lastTotalRx_init).2).1 = 10 := by
  have h1 := C5_throughput_delta 1250000 lastTotalRx_init
    (by norm_num [lastTotalRx_init]) (by norm_num [lastTotalRx_init])
  have h2 := C5_throughput_delta 2500000 1250000 (by norm_num) (by norm_num)
  constructor
  · rw [h1.1]
    norm_num [lastTotalRx_init]
  · rw [h1.2, h2.1]
    norm_num

/-- Claim C8 counterexample: the claim states that the counters are mutated
only by the transmit and receive notification callbacks and that every
loss-calculation tick leaves both counters unchanged.  The loss tick of the
Bus BBR file overwrites the received counter with GetTotalRx() / 1500: from
the state (sent 5, received 0) with 3000 cumulative sink bytes, the tick
changes the received counter to 2. -/
theorem C8_counterexample_bus_tick_mutates_counter :
    (CalculatePacketLoss_bus 1 ⟨5, 0⟩ 3000).1.received = 2 ∧
    (CalculatePacketLoss_bus 1 ⟨5, 0⟩ 3000).1 ≠ (⟨5, 0⟩ : Counters) := by
  exact ⟨rfl, by decide⟩

/-- Claim C8, amended: in the Point-To-Point variants the loss and
throughput ticks leave the packet counters unchanged (the throughput tick
overwrites only its own private total) and the notification callbacks are
the sole mutators, each a single increment of its own counter (modulo the
uint32 width, so monotone as long as the counter has not reached 2^32 - 1);
in the Bus BBR variant, by contrast, the loss tick itself overwrites the
received counter from the sink byte total. -/
theorem C8_ptp_ticks_preserve_counters (t : ℚ) (c : Counters)
    (totalRx lastRx : Nat) :
    (CalculatePacketLoss_quicbbr t c).1 = c ∧
    (CalculatePacketLoss_tcpcubic t c).1 = c ∧
    (findThroughput totalRx lastRx).2 = totalRx ∧
    (PacketSentCallback c).received = c.received ∧
    (PacketReceivedCallback c).sent = c.sent ∧
    (c.sent + 1 < 2 ^ 32 → (PacketSentCallback c).sent = c.sent + 1) ∧
    (c.received + 1 < 2 ^ 32 → (PacketReceivedCallback c).received = c.received + 1) ∧
    (c.sent + 1 < 2 ^ 32 → c.sent ≤ (PacketSentCallback c).sent) ∧
    (c.received + 1 < 2 ^ 32 → c.received ≤ (PacketReceivedCallback c).received) := by
  refine ⟨rfl, rfl, rfl, rfl, rfl, ?_, ?_, ?_, ?_⟩
  · intro h
    exact Nat.mod_eq_of_lt h
  · intro h
    exact Nat.mod_eq_of_lt h
  · intro h
    show c.sent ≤ (c.sent + 1) % 2 ^ 32
    rw [Nat.mod_eq_of_lt h]
    omega
  · intro h
    show c.received ≤ (c.received + 1) % 2 ^ 32
    rw [Nat.mod_eq_of_lt h]
    omega

/-- Claim C8 witness: from the counter state (3, 4) the two Point-To-Point
loss ticks and the throughput tick leave the counters unchanged, and each
callback increments exactly its own counter by one. -/
theorem C8_witness_frame :
    (CalculatePacketLoss_quicbbr 1 ⟨3, 4⟩).1 = ⟨3, 4⟩ ∧
    (CalculatePacketLoss_tcpcubic 1 ⟨3, 4⟩).1 = ⟨3, 4⟩ ∧
    (findThroughput 7 0).2 = 7 ∧
    (PacketSentCallback ⟨3, 4⟩).received = 4 ∧
    (PacketReceivedCallback ⟨3, 4⟩).sent = 3 ∧
    (PacketSentCallback ⟨3, 4⟩).sent = 3 + 1 ∧
    (PacketReceivedCallback ⟨3, 4⟩).received = 4 + 1 := by
  have h := C8_ptp_ticks_preserve_counters 1 ⟨3, 4⟩ 7 0
  exact ⟨h.1, h.2.1, h.2.2.1, h.2.2.2.1, h.2.2.2.2.1,
    h.2.2.2.2.2.1 (by decide), h.2.2.2.2.2.2.1 (by decide)⟩

/-- Claim C9: running the throughput tick twice with the same cumulative
total (the only state change between the calls being the overwrite of the
private last-observed total by the first call) yields a throughput of
exactly 0 on the second call, for every cumulative total and every prior
private total. -/
theorem C9_second_tick_zero (totalRx lastRx : Nat) :
    (findThroughput totalRx (findThroughput totalRx lastRx).2).1 = 0 := by
  show (((totalRx + 2 ^ 64 - totalRx) % 2 ^ 64 : ℕ) : ℚ) * 8 / 1000000 = 0
  have h : (totalRx + 2 ^ 64 - totalRx) % 2 ^ 64 = 0 := by omega
  rw [h]
  norm_num
